import Mathlib

/-!
Verification development for the pynetCF `Dataset` wrapper
(src/src/pynetcf/base.py).

The wrapper owns one underlying netCDF dataset object and mediates
dimension creation, variable write/append/read, attribute management and
the flush/close lifecycle.  The source drives the underlying object
through the netCDF4-style interface (`variables`, `dimensions`,
`isunlimited`, `createVariable`, item assignment, `sync`,
`set_auto_scale`) and through two xarray entry points (construction of a
fresh dataset and `expand_dims`).  Each delegated primitive is modelled
here by the documented behaviour of the library that provides it;
everything else is translated line by line from the source.

Attribute mappings are modelled as functions `String -> Option String`
(python dict semantics: pointwise item assignment, `update` merges the
argument over the receiver; the spec says insertion order is
irrelevant).
-/

namespace PynetCF

/-- Python dict of attributes: name to value, absent keys give none. -/
def Attrs : Type := String → Option String

/-- Python `d.update(e)`: every key present in `e` wins, other keys keep
the value from `d`. -/
def attrsUpdate (d e : Attrs) : Attrs :=
  fun k => match e k with
    | some v => some v
    | none => d k

/-- A registered netCDF dimension is either fixed of a given extent or
unlimited (growable). -/
inductive DimSize where
  | fixed (n : Nat)
  | unlimited
deriving DecidableEq, Repr

/-- netCDF4 `Dimension.isunlimited()`. -/
def DimSize.isunlimited : DimSize → Bool
  | DimSize.fixed _ => false
  | DimSize.unlimited => true

/-- The numpy dtypes the wrapper distinguishes: `np.issubdtype(dtype,
np.number)` holds for the numeric ones and fails for strings and
booleans. -/
inductive NpDtype where
  | float64
  | float32
  | int64
  | int32
  | str_
  | bool_
deriving DecidableEq, Repr

/-- Model of `np.issubdtype(dtype, np.number)`. -/
def NpDtype.isNumber : NpDtype → Bool
  | NpDtype.float64 => true
  | NpDtype.float32 => true
  | NpDtype.int64 => true
  | NpDtype.int32 => true
  | NpDtype.str_ => false
  | NpDtype.bool_ => false

/-- A numpy array as the wrapper sees it: its elements (one entry per
record along the growable axis; a record is a full cross-section over
the fixed axes) together with its dtype. -/
structure ArrayData (α : Type) where
  values : List α
  dtype : NpDtype

/-- A python `slice(start, stop, step)` object as built by `append_var`:
the source only ever builds `slice(None, None, None)` and
`slice(var.shape[index], None, None)`. -/
structure Slice where
  start : Option Nat
  stop : Option Nat
  step : Option Nat
deriving DecidableEq, Repr

/-- `slice(None, None, None)`: the full extent along an axis. -/
def sliceAll : Slice :=
  { start := none, stop := none, step := none }

/-- A netCDF variable: its ordered dimension names, its records along
the growable axis (or its raw contents when no axis is growable), and
the encoding metadata the wrapper records at creation time. -/
structure NcVariable (α : Type) where
  dimensions : List String
  records : List α
  enc_fillValue : Option String
  enc_dtype : Option NpDtype
  enc_zlib : Option Bool
  enc_complevel : Option Nat
  enc_chunksizes : Option (List Nat)
  ncattrs : Attrs
  auto_scale : Bool

/-- The underlying dataset object (`self.dataset` in the source):
registered dimensions, variables (field vars, since the word variables is reserved in Lean), global attribute mapping, a counter of
`sync()` calls, and the autoscale/automask policies applied to it. -/
structure NcData (α : Type) where
  dimensions : String → Option DimSize
  vars : String → Option (NcVariable α)
  attrs : Attrs
  syncs : Nat
  auto_scale : Bool
  auto_mask : Bool

/-- `xr.Dataset()`: a fresh empty dataset. -/
def NcData.empty (α : Type) : NcData α :=
  { dimensions := fun _ => none
    vars := fun _ => none
    attrs := fun _ => none
    syncs := 0
    auto_scale := true
    auto_mask := true }

/-- Store a variable under a name (item assignment on the variable mapping). -/
def NcData.setVariable (d : NcData α) (name : String) (v : NcVariable α) : NcData α :=
  { d with vars := fun k => if k = name then some v else d.vars k }

/-- xarray `Dataset.expand_dims({name: n})`: returns a NEW dataset with
the extra dimension registered; it never modifies its receiver. -/
def NcData.expand_dims (d : NcData α) (name : String) (n : Nat) : NcData α :=
  { d with dimensions := fun k => if k = name then some (DimSize.fixed n) else d.dimensions k }

/-- `self.dataset.dimensions[dim].isunlimited()`.  The dimensions of an
existing variable are always registered in the file, so an absent name
is treated as not unlimited. -/
def NcData.dimIsUnlimited (d : NcData α) (nm : String) : Bool :=
  match d.dimensions nm with
  | some s => s.isunlimited
  | none => false

/-- `var.shape[index]`: the extent of the variable along its
`index`-th axis — the declared size for a fixed dimension, the current
number of records for the unlimited one. -/
def NcVariable.shapeAt (v : NcVariable α) (d : NcData α) (index : Nat) : Nat :=
  match v.dimensions.get? index with
  | some nm =>
    match d.dimensions nm with
    | some (DimSize.fixed n) => n
    | some DimSize.unlimited => v.records.length
    | none => 0
  | none => 0

/-- netCDF4 semantics of `var[key] = data` for the keys built by
`append_var`: every component is either the full slice or a start-only
slice along an unlimited axis.  With at most one unlimited axis the
assignment writes `data` from that start offset on, growing the
dimension; `append_var` always passes the current extent as the start,
which makes the assignment a pure append. -/
def NcVariable.setitem (v : NcVariable α) (key : List Slice) (data : List α) : NcVariable α :=
  match (key.filterMap Slice.start).head? with
  | some s => { v with records := v.records.take s ++ data }
  | none => { v with records := data }

/-- The wrapper handle (`class Dataset` of the source).  `_global_attr`
is the dict seeded in `__init__`; `dataset` is `self.dataset`, none once
the handle is closed; `releases` counts `self.dataset.close()` calls on
the underlying resource. -/
structure Dataset (α : Type) where
  filename : String
  mode : String
  zlib : Bool
  complevel : Nat
  autoscale : Bool
  automask : Bool
  _global_attr : Attrs
  dataset : Option (NcData α)
  releases : Nat

/-- Modelled from the spec: `pynetcf.const.alias_a` is imported by the
source but `pynetcf/const.py` is not under src/.  Spec section 4.1 says
an alias set of append-mode spellings normalizes to the single canonical
append mode, and the class documentation of the source lists "a" and
"r+" as the append spellings. -/
def alias_a : List String := ["a", "r+"]

/-- `os.path.split(p)[1]`: the final path component after the last
slash (the characters of `p` after dropping everything up to and
including the last slash). -/
def osPathBasename (p : String) : String :=
  String.mk ((p.data.reverse.takeWhile (fun c => c != '/')).reverse)

/-- `Dataset.__init__` (source lines 88-141).  `file_exists` models
`os.path.exists(self.filename)` (creating the parent directory does not
create the file, so both existence checks read the same value);
`existing` is the dataset `xr.open_dataset` would return for an
existing file; `now` is the formatted `datetime.datetime.now()`.  The
`_create_file_dir` filesystem effect of the `self.mode == "w"` branch is
modelled separately by `createFileDirRun`. -/
def Dataset.init (filename : String) (name : Option String) (mode : String)
    (zlib : Bool) (complevel : Nat) (autoscale : Bool) (automask : Bool)
    (file_exists : Bool) (existing : NcData α) (now : String) :
    Except String (Dataset α) :=
  let ga : Attrs := fun k =>
    if k = "id" then some (osPathBasename filename)
    else if k = "date_created" then some now
    else if k = "dataset_name" then name
    else none
  let mode1 := if mode ∈ alias_a then "a" else mode
  let mode2 := if mode1 = "a" ∧ file_exists = false then "w" else mode1
  -- source line 131 tests the ORIGINAL `mode` argument, not `self.mode`
  if mode ∈ (["r", "a"] : List String) then
    if file_exists = false then
      Except.error ("File " ++ filename ++ " does not exist.")
    else
      Except.ok
        { filename := filename, mode := mode2, zlib := zlib, complevel := complevel
          autoscale := autoscale, automask := automask, _global_attr := ga
          dataset := some { existing with auto_scale := autoscale, auto_mask := automask }
          releases := 0 }
  else
    Except.ok
      { filename := filename, mode := mode2, zlib := zlib, complevel := complevel
        autoscale := autoscale, automask := automask, _global_attr := ga
        dataset := some { NcData.empty α with auto_scale := autoscale, auto_mask := automask }
        releases := 0 }

/-- The `global_attr` property (source lines 143-145): it returns
`self.dataset.attrs`, NOT the seeded `self._global_attr` dict. -/
def Dataset.global_attr (self : Dataset α) : Attrs :=
  match self.dataset with
  | some d => d.attrs
  | none => fun _ => none

/-- `Dataset._set_global_attr` (source lines 161-165):
`self.dataset.attrs.update(self.global_attr)` — the argument is the
`global_attr` property, i.e. `self.dataset.attrs` itself. -/
def Dataset.set_global_attr (self : Dataset α) : Dataset α :=
  match self.dataset with
  | some d =>
    { self with dataset := some { d with attrs := attrsUpdate d.attrs self.global_attr } }
  | none => self

/-- `Dataset.create_dim` (source lines 167-182).  Line 182 calls
`self.dataset.expand_dims({name: n}, axis=axis)` as a bare statement:
xarray returns the expanded dataset as a new object and the result is
discarded, so the receiver is unchanged on both branches. -/
def Dataset.create_dim (self : Dataset α) (name : String) (n : Nat) : Dataset α :=
  match self.dataset with
  | some d =>
    if (d.dimensions name).isNone then
      let _discarded := d.expand_dims name n
      self
    else self
  | none => self

/-- Lines 235-236: `if dtype is None: dtype = data.dtype`; none means
the python AttributeError on `None.dtype`. -/
def dtypeResolve (dtype : Option NpDtype) (data : Option (ArrayData α)) : Option NpDtype :=
  match dtype with
  | some dt => some dt
  | none => Option.map ArrayData.dtype data

/-- Lines 238-243: per-call flag wins over the handle default, then
compression is force-disabled for non numeric dtypes. -/
def resolveZlib (selfZlib : Bool) (zlibArg : Option Bool) (dtypeR : NpDtype) : Bool :=
  let z := match zlibArg with
    | some b => b
    | none => selfZlib
  if !dtypeR.isNumber then false else z

/-- Lines 245-246: per-call compression level wins over the handle
default. -/
def resolveComplevel (selfComplevel : Nat) (clArg : Option Nat) : Nat :=
  match clArg with
  | some c => c
  | none => selfComplevel

/-- `Dataset.write_var` (source lines 184-275).  For a new name the
source builds the variable with the resolved fill value, dtype,
compression flag/level and chunk sizes recorded as encoding (both the
`xr.DataArray` encoding assignments and the `createVariable` call pass
exactly these resolved values); for an existing name it reuses the
variable and leaves dims/encoding untouched.  In both cases the
remaining attributes are applied with `setncattr`, the autoscale policy
is applied, and when data is given it overwrites the full extent
(`var[:] = data`). -/
def Dataset.write_var (self : Dataset α) (name : String)
    (data : Option (ArrayData α)) (dim : List String) (attr : Attrs)
    (dtype : Option NpDtype) (zlibArg : Option Bool) (clArg : Option Nat)
    (chunksizes : Option (List Nat)) : Except String (Dataset α) :=
  match self.dataset with
  | none => Except.error "AttributeError: dataset is closed"
  | some d =>
    let fill_value : Option String := attr "_FillValue"
    let attr1 : Attrs := fun k => if k = "_FillValue" then none else attr k
    match dtypeResolve dtype data with
    | none => Except.error "AttributeError: data is None and no dtype was given"
    | some dtypeR =>
      let zlibR := resolveZlib self.zlib zlibArg dtypeR
      let clR := resolveComplevel self.complevel clArg
      let var0 : NcVariable α :=
        match d.vars name with
        | some v => v
        | none =>
          { dimensions := dim
            records := match data with
              | some a => a.values
              | none => []
            enc_fillValue := fill_value
            enc_dtype := some dtypeR
            enc_zlib := some zlibR
            enc_complevel := some clR
            enc_chunksizes := chunksizes
            ncattrs := fun _ => none
            auto_scale := self.autoscale }
      let var1 := { var0 with ncattrs := attrsUpdate var0.ncattrs attr1 }
      let var2 := { var1 with auto_scale := self.autoscale }
      let var3 := { var2 with records := match data with
        | some a => a.values
        | none => var2.records }
      Except.ok { self with dataset := some (d.setVariable name var3) }

/-- The loop of `append_var` (source lines 296-307): one pass over
`enumerate(var.dimensions)` collecting, per axis, the unlimited flag and
the slice — the full slice for a fixed axis, a slice starting at
`var.shape[index]` for an unlimited one. -/
def appendEntries (d : NcData α) (v : NcVariable α) : Nat → List String → List (Bool × Slice)
  | _, [] => []
  | index, dimName :: rest =>
    let unlimited := d.dimIsUnlimited dimName
    let entry : Bool × Slice :=
      if unlimited = false then
        (unlimited, sliceAll)
      else
        (unlimited, { start := some (v.shapeAt d index), stop := none, step := none })
    entry :: appendEntries d v (index + 1) rest

/-- `Dataset.append_var` (source lines 277-319).  The IOError is raised
before the only assignment `var[key] = data`, so the error branch leaves
the dataset untouched; a missing name delegates to `write_var`. -/
def Dataset.append_var (self : Dataset α) (name : String) (data : ArrayData α) :
    Except String (Dataset α) :=
  match self.dataset with
  | none => Except.error "AttributeError: dataset is closed"
  | some d =>
    match d.vars name with
    | some var =>
      let entries := appendEntries d var 0 var.dimensions
      let dim_unlimited := entries.map Prod.fst
      let key := entries.map Prod.snd
      let nr_unlimited := (dim_unlimited.filter (fun b => b)).length
      if nr_unlimited > 0 then
        Except.ok { self with dataset := some (d.setVariable name (var.setitem key data.values)) }
      else
        Except.error "Cannot append to variable that has no unlimited dimension"
    | none =>
      self.write_var name (some data) [] (fun _ => none) none none none none

/-- `Dataset.read_var` (source lines 321-333): only in modes "r", "r+"
and "a"; returns the full contents `var[:]` of an existing variable and
falls through to the implicit `return None` otherwise. -/
def Dataset.read_var (self : Dataset α) (name : String) : Except String (Option (List α)) :=
  if self.mode ∈ (["r", "r+", "a"] : List String) then
    match self.dataset with
    | none => Except.error "AttributeError: dataset is closed"
    | some d =>
      match d.vars name with
      | some v => Except.ok (some v.records)
      | none => Except.ok none
  else
    Except.ok none

/-- `Dataset.add_global_attr` (source lines 335-346):
`self.global_attr[name] = value` — item assignment through the property,
i.e. directly on `self.dataset.attrs`. -/
def Dataset.add_global_attr (self : Dataset α) (name value : String) : Dataset α :=
  match self.dataset with
  | some d =>
    let d1 := { d with attrs := fun k => if k = name then some value else d.attrs k }
    { self with dataset := some d1 }
  | none => self

/-- `Dataset.flush` (source lines 348-355): when the dataset is still
open and the mode allows writing, persist the attributes
(`_set_global_attr`) and `sync()` the resource. -/
def Dataset.flush (self : Dataset α) : Dataset α :=
  if self.dataset.isSome then
    if self.mode ∈ (["w", "r+", "a"] : List String) then
      let s1 := self.set_global_attr
      { s1 with dataset := Option.map (fun d => { d with syncs := d.syncs + 1 }) s1.dataset }
    else self
  else self

/-- `Dataset.close` (source lines 357-364): flush, release the
underlying resource (`self.dataset.close()`, counted by `releases`) and
mark the handle closed (`self.dataset = None`). -/
def Dataset.close (self : Dataset α) : Dataset α :=
  if self.dataset.isSome then
    let s1 := self.flush
    { s1 with dataset := none, releases := s1.releases + 1 }
  else self

/-- Filesystem oracle for `_create_file_dir` (source lines 147-159):
for each attempt number, whether `os.path.exists` sees the parent
directory and whether `os.makedirs` completes without OSError. -/
structure FsOracle where
  path_exists : Nat → Bool
  makedirs_ok : Nat → Bool

/-- `Dataset._create_file_dir` run with a fuel bound: the source
function returns when the directory exists or `makedirs` succeeds, and
on OSError sleeps one second and recurses with no retry counter and no
base case of its own.  `some ()` means the call returned within `fuel`
attempts; `none` means it was still recursing when the bound ran out. -/
def createFileDirRun (fs : FsOracle) : Nat → Nat → Option Unit
  | 0, _ => none
  | fuel + 1, attempt =>
    if fs.path_exists attempt then some ()
    else if fs.makedirs_ok attempt then some ()
    else createFileDirRun fs fuel (attempt + 1)

/-- A persistent failure: the parent directory never comes to exist and
every `makedirs` attempt raises OSError (for example a read-only
mount). -/
def persistentFail : FsOracle :=
  { path_exists := fun _ => false
    makedirs_ok := fun _ => false }

/-- Sample variable on the unlimited axis "time" with three records. -/
def sampleVar : NcVariable Int :=
  { dimensions := ["time"]
    records := [1, 2, 3]
    enc_fillValue := none
    enc_dtype := some NpDtype.int64
    enc_zlib := some true
    enc_complevel := some 4
    enc_chunksizes := none
    ncattrs := fun _ => none
    auto_scale := true }

/-- Sample variable whose only dimension "lat" is fixed. -/
def sampleVar2 : NcVariable Int :=
  { dimensions := ["lat"]
    records := [7, 8]
    enc_fillValue := none
    enc_dtype := some NpDtype.int64
    enc_zlib := some true
    enc_complevel := some 4
    enc_chunksizes := none
    ncattrs := fun _ => none
    auto_scale := true }

/-- Sample dataset: unlimited dimension "time", fixed dimension "lat",
variable "temp" over "time" and variable "static" over "lat". -/
def sampleNc : NcData Int :=
  { dimensions := fun k =>
      if k = "time" then some DimSize.unlimited
      else if k = "lat" then some (DimSize.fixed 2)
      else none
    vars := fun k =>
      if k = "temp" then some sampleVar
      else if k = "static" then some sampleVar2
      else none
    attrs := fun _ => none
    syncs := 0
    auto_scale := true
    auto_mask := true }

/-- Sample handle opened read-only on `sampleNc`. -/
def sampleR : Dataset Int :=
  { filename := "data/f.nc"
    mode := "r"
    zlib := true
    complevel := 4
    autoscale := true
    automask := true
    _global_attr := fun _ => none
    dataset := some sampleNc
    releases := 0 }

/-- Sample handle opened in write mode on a fresh empty dataset. -/
def sampleW : Dataset Int :=
  { filename := "data/f.nc"
    mode := "w"
    zlib := true
    complevel := 4
    autoscale := true
    automask := true
    _global_attr := fun _ => none
    dataset := some (NcData.empty Int)
    releases := 0 }

/-- Two more records to append in the concrete witnesses. -/
def arr45 : ArrayData Int :=
  { values := [4, 5], dtype := NpDtype.int64 }

theorem attrsUpdate_self (a : Attrs) : attrsUpdate a a = a := by
  funext k
  unfold attrsUpdate
  cases h : a k <;> simp [h]

theorem get?_of_drop (i : Nat) :
    ∀ (l : List String) (a : String) (rest : List String),
      l.drop i = a :: rest → l.get? i = some a := by
  induction i with
  | zero =>
    intro l a rest h
    rw [List.drop_zero] at h
    rw [h]
    rfl
  | succ n ih =>
    intro l a rest h
    cases l with
    | nil => simp at h
    | cons b t => exact ih t a rest h

theorem drop_succ_of_drop (i : Nat) :
    ∀ (l : List String) (a : String) (rest : List String),
      l.drop i = a :: rest → l.drop (i + 1) = rest := by
  induction i with
  | zero =>
    intro l a rest h
    rw [List.drop_zero] at h
    rw [h]
    rfl
  | succ n ih =>
    intro l a rest h
    cases l with
    | nil => simp at h
    | cons b t => exact ih t a rest h

theorem dimensions_eq_of_unlimited {d : NcData α} {nm : String}
    (h : d.dimIsUnlimited nm = true) : d.dimensions nm = some DimSize.unlimited := by
  unfold NcData.dimIsUnlimited at h
  cases hd : d.dimensions nm with
  | none => rw [hd] at h; simp at h
  | some s =>
    cases s with
    | fixed n => rw [hd] at h; simp [DimSize.isunlimited] at h
    | unlimited => rfl

theorem appendEntries_map_fst (d : NcData α) (v : NcVariable α) :
    ∀ (l : List String) (i : Nat),
      (appendEntries d v i l).map Prod.fst = l.map (fun nm => d.dimIsUnlimited nm) := by
  intro l
  induction l with
  | nil => intro i; rfl
  | cons a rest ih =>
    intro i
    cases hu : d.dimIsUnlimited a <;> simp [appendEntries, hu, ih (i + 1)]

theorem appendEntries_all_fixed_full (d : NcData α) (v : NcVariable α) :
    ∀ (l : List String) (i : Nat),
      (appendEntries d v i l).all (fun p => p.1 || decide (p.2 = sliceAll)) = true := by
  intro l
  induction l with
  | nil => intro i; rfl
  | cons a rest ih =>
    intro i
    cases hu : d.dimIsUnlimited a <;> simp [appendEntries, hu, ih (i + 1)]

theorem appendEntries_starts (d : NcData α) (v : NcVariable α) :
    ∀ (l : List String) (i : Nat), v.dimensions.drop i = l →
      ((appendEntries d v i l).map Prod.snd).filterMap Slice.start
        = List.replicate ((l.filter (fun nm => d.dimIsUnlimited nm)).length) v.records.length := by
  intro l
  induction l with
  | nil => intro i _; rfl
  | cons a rest ih =>
    intro i hdrop
    have hget := get?_of_drop i v.dimensions a rest hdrop
    have hnext := drop_succ_of_drop i v.dimensions a rest hdrop
    have htail := ih (i + 1) hnext
    cases hu : d.dimIsUnlimited a with
    | false =>
      simp [appendEntries, hu, sliceAll, htail]
    | true =>
      have hdim : d.dimensions a = some DimSize.unlimited := dimensions_eq_of_unlimited hu
      have hshape : v.shapeAt d i = v.records.length := by
        unfold NcVariable.shapeAt
        rw [hget]
        simp [hdim]
      simp [appendEntries, hu, hshape, List.replicate_succ, htail]

theorem close_dataset_none (h : Dataset α) : (Dataset.close h).dataset = none := by
  unfold Dataset.close
  cases hd : h.dataset <;> simp [hd]

theorem close_of_none (g : Dataset α) (hg : g.dataset = none) : Dataset.close g = g := by
  unfold Dataset.close
  simp [hg]

theorem flush_of_none (g : Dataset α) (hg : g.dataset = none) : Dataset.flush g = g := by
  unfold Dataset.flush
  simp [hg]

/-- C1: the claim says constructing a handle with canonical append mode "a"
on a path that does not exist succeeds and behaves as write-new mode.  The
code resolves `self.mode` to "w" and creates the parent directory, but line
131 then re-checks the ORIGINAL `mode` argument, finds "a" in the open list,
and raises IOError because the file does not exist.  Evaluated here: init
with mode "a" on a missing file returns the IOError instead of a handle. -/
theorem init_append_missing_raises :
    Dataset.init "data/f.nc" none "a" true 4 true true false (NcData.empty Int)
        "2026-01-01 00:00:00"
      = Except.error "File data/f.nc does not exist." := rfl

/-- C4: the claim says create_dim registers an absent dimension with the
given size.  The code calls xarray expand_dims on line 182 as a bare
statement and discards its result, so nothing is ever registered: on an open
write handle over an empty dataset the dimension stays absent and the handle
is unchanged, even though the discarded expand_dims result does contain the
dimension. -/
theorem create_dim_discards_result :
    Option.map (fun d => d.dimensions "time") (Dataset.create_dim sampleW "time" 5).dataset
        = some none
    ∧ (NcData.expand_dims (NcData.empty Int) "time" 5).dimensions "time"
        = some (DimSize.fixed 5)
    ∧ Dataset.create_dim sampleW "time" 5 = sampleW :=
  ⟨rfl, rfl, rfl⟩

/-- C6: the claim says the seeded global-attribute defaults (id, creation
timestamp, optional name label) are present in the persisted dataset
attribute mapping after flush.  The seeds are indeed initialized at open in
`self._global_attr`, but `_set_global_attr` updates `self.dataset.attrs`
with the `global_attr` property — which is `self.dataset.attrs` itself — so
the seeds are never copied over: after flush on a freshly created file the
dataset attribute mapping holds none of them. -/
theorem flush_drops_seeded_defaults :
    Except.map
      (fun h => (h._global_attr "id", h._global_attr "date_created",
        h._global_attr "dataset_name",
        Option.map (fun d => (d.attrs "id", d.attrs "date_created", d.attrs "dataset_name"))
          (Dataset.flush h).dataset))
      (Dataset.init "data/f.nc" (some "nm") "w" true 4 true true false (NcData.empty Int)
        "2026-01-01 00:00:00")
      = Except.ok (some "f.nc", some "2026-01-01 00:00:00", some "nm",
          some (none, none, none)) := rfl

/-- C7: the claim says `_create_file_dir` returns or raises after a bounded
number of retries even when the failure persists.  The source recurses with
no retry counter on every OSError, so under the persistent-failure oracle no
fuel bound whatsoever ever sees the call return: the recursion only stops
when the interpreter itself runs out of stack, not by any bound in the
code. -/
theorem create_file_dir_unbounded :
    ∀ (fuel attempt : Nat), createFileDirRun persistentFail fuel attempt = none := by
  intro fuel
  induction fuel with
  | zero => intro attempt; rfl
  | succ n ih =>
    intro attempt
    exact ih (attempt + 1)

/-- C8: close is idempotent and safe after itself: a second close, or a
flush after close, returns the handle unchanged (the guard on
`self.dataset is not None` makes both no-ops), and in particular the
underlying resource release count does not grow a second time. -/
theorem close_idempotent (h : Dataset α) :
    Dataset.close (Dataset.close h) = Dataset.close h
    ∧ Dataset.flush (Dataset.close h) = Dataset.close h
    ∧ (Dataset.close (Dataset.close h)).releases = (Dataset.close h).releases := by
  have hn := close_dataset_none h
  exact ⟨close_of_none _ hn, flush_of_none _ hn, by rw [close_of_none _ hn]⟩

theorem close_idempotent_witness :
    Dataset.close (Dataset.close sampleR) = Dataset.close sampleR
    ∧ Dataset.flush (Dataset.close sampleR) = Dataset.close sampleR
    ∧ (Dataset.close (Dataset.close sampleR)).releases = (Dataset.close sampleR).releases :=
  close_idempotent sampleR

/-- C9: on a handle in mode "r", "r+" or "a" that is still open, read_var
returns the full contents of an existing variable and the explicit absent
result (None) for a missing name; it never raises. -/
theorem read_var_present_or_none (h : Dataset α) (d : NcData α) (name : String)
    (hmode : h.mode ∈ (["r", "r+", "a"] : List String))
    (hopen : h.dataset = some d) :
    h.read_var name = Except.ok (Option.map NcVariable.records (d.vars name)) := by
  unfold Dataset.read_var
  rw [if_pos hmode, hopen]
  cases hv : d.vars name <;> simp [hv]

theorem read_var_present_or_none_witness :
    Dataset.read_var sampleR "temp"
        = Except.ok (Option.map NcVariable.records (sampleNc.vars "temp"))
    ∧ Dataset.read_var sampleR "missing"
        = Except.ok (Option.map NcVariable.records (sampleNc.vars "missing")) :=
  ⟨read_var_present_or_none sampleR sampleNc "temp" (by decide) rfl,
   read_var_present_or_none sampleR sampleNc "missing" (by decide) rfl⟩

/-- C10: the `global_attr` property is an alias of `self.dataset.attrs`, so
an entry added with add_global_attr is visible in the dataset attribute
mapping immediately, and the attribute-persisting step of flush
(`_set_global_attr`) updates the mapping with itself and therefore never
changes it. -/
theorem global_attr_aliases_dataset_attrs (h : Dataset α) (d : NcData α) (n v : String)
    (hopen : h.dataset = some d) :
    (∃ d1, (Dataset.add_global_attr h n v).dataset = some d1 ∧ d1.attrs n = some v)
    ∧ (∃ d2, (Dataset.set_global_attr h).dataset = some d2 ∧ d2.attrs = d.attrs) := by
  constructor
  · refine ⟨{ d with attrs := fun k => if k = n then some v else d.attrs k }, ?_, ?_⟩
    · simp [Dataset.add_global_attr, hopen]
    · simp
  · refine ⟨{ d with attrs := attrsUpdate d.attrs d.attrs }, ?_, ?_⟩
    · simp [Dataset.set_global_attr, Dataset.global_attr, hopen]
    · simp [attrsUpdate_self]

theorem global_attr_aliases_witness :
    (∃ d1, (Dataset.add_global_attr sampleR "foo" "bar").dataset = some d1
        ∧ d1.attrs "foo" = some "bar")
    ∧ (∃ d2, (Dataset.set_global_attr sampleR).dataset = some d2
        ∧ d2.attrs = sampleNc.attrs) :=
  global_attr_aliases_dataset_attrs sampleR sampleNc "foo" "bar" rfl

/-- C2: appending to an existing variable with exactly one unlimited
dimension at current extent k: the computed key starts at k along the
unlimited axis and is the full slice along every fixed axis, and the
assignment lands at positions k and beyond, so the extent becomes k + m
and the first k records are unchanged. -/
theorem append_var_one_unlimited (h : Dataset α) (d : NcData α) (var : NcVariable α)
    (name : String) (data : ArrayData α)
    (hopen : h.dataset = some d)
    (hvar : d.vars name = some var)
    (hone : (var.dimensions.filter (fun nm => d.dimIsUnlimited nm)).length = 1) :
    ((appendEntries d var 0 var.dimensions).map Prod.snd).filterMap Slice.start
        = [var.records.length]
    ∧ (appendEntries d var 0 var.dimensions).all (fun p => p.1 || decide (p.2 = sliceAll))
        = true
    ∧ Except.map (fun h1 => Option.map (fun d1 =>
          Option.map NcVariable.records (d1.vars name)) h1.dataset)
        (h.append_var name data)
        = Except.ok (some (some (var.records ++ data.values)))
    ∧ (var.records ++ data.values).take var.records.length = var.records
    ∧ (var.records ++ data.values).length = var.records.length + data.values.length := by
  have hstarts := appendEntries_starts d var var.dimensions 0 (List.drop_zero _)
  rw [hone, List.replicate_one] at hstarts
  have hall := appendEntries_all_fixed_full d var var.dimensions 0
  have hfst := appendEntries_map_fst d var var.dimensions 0
  have hpos :
      0 < (((appendEntries d var 0 var.dimensions).map Prod.fst).filter (fun b => b)).length := by
    rw [hfst, List.filter_map, List.length_map]
    have h2 : (var.dimensions.filter ((fun b => b) ∘ fun nm => d.dimIsUnlimited nm)).length = 1 := by
      simpa [Function.comp] using hone
    omega
  have hset : var.setitem ((appendEntries d var 0 var.dimensions).map Prod.snd) data.values
      = { var with records := var.records ++ data.values } := by
    unfold NcVariable.setitem
    rw [hstarts]
    simp [List.take_length]
  have happ : h.append_var name data
      = Except.ok { h with dataset := some (d.setVariable name { var with records := var.records ++ data.values }) } := by
    simp only [Dataset.append_var, hopen, hvar]
    rw [if_pos hpos, hset]
  refine ⟨hstarts, hall, ?_, List.take_left _ _, List.length_append _ _⟩
  rw [happ]
  simp [Except.map, NcData.setVariable]

theorem append_var_one_unlimited_witness :
    ((appendEntries sampleNc sampleVar 0 sampleVar.dimensions).map Prod.snd).filterMap
        Slice.start
        = [sampleVar.records.length]
    ∧ (appendEntries sampleNc sampleVar 0 sampleVar.dimensions).all
        (fun p => p.1 || decide (p.2 = sliceAll)) = true
    ∧ Except.map (fun h1 => Option.map (fun d1 =>
          Option.map NcVariable.records (d1.vars "temp")) h1.dataset)
        (Dataset.append_var sampleR "temp" arr45)
        = Except.ok (some (some (sampleVar.records ++ arr45.values)))
    ∧ (sampleVar.records ++ arr45.values).take sampleVar.records.length = sampleVar.records
    ∧ (sampleVar.records ++ arr45.values).length
        = sampleVar.records.length + arr45.values.length :=
  append_var_one_unlimited sampleR sampleNc sampleVar "temp" arr45 rfl rfl rfl

/-- C3: appending to an existing variable all of whose dimensions are fixed
raises the IOError; the raise comes before the sole write statement, so the
error result carries no new state and the dataset is untouched. -/
theorem append_var_all_fixed (h : Dataset α) (d : NcData α) (var : NcVariable α)
    (name : String) (data : ArrayData α)
    (hopen : h.dataset = some d)
    (hvar : d.vars name = some var)
    (hfixed : ∀ nm ∈ var.dimensions, d.dimIsUnlimited nm = false) :
    h.append_var name data
      = Except.error "Cannot append to variable that has no unlimited dimension" := by
  have hfst := appendEntries_map_fst d var var.dimensions 0
  have hnil : ((appendEntries d var 0 var.dimensions).map Prod.fst).filter (fun b => b) = [] := by
    apply List.filter_eq_nil_iff.mpr
    intro b hb
    rw [hfst] at hb
    obtain ⟨nm, hnm, hbe⟩ := List.mem_map.mp hb
    rw [← hbe]
    simp [hfixed nm hnm]
  simp only [Dataset.append_var, hopen, hvar]
  simp [hnil]

theorem append_var_all_fixed_witness :
    Dataset.append_var sampleR "static" arr45
      = Except.error "Cannot append to variable that has no unlimited dimension" :=
  append_var_all_fixed sampleR sampleNc sampleVar2 "static" arr45 rfl rfl (by decide)

/-- C5: in write_var, the compression flag resolves to the per-call zlib
argument when given and the handle default otherwise, and is force-disabled
whenever the resolved dtype is non numeric regardless of the requested
flag; the compression level resolves to the per-call complevel when given
and the handle default otherwise; a newly created variable records exactly
these resolved values in its encoding. -/
theorem write_var_encoding (h : Dataset α) (d : NcData α) (name : String)
    (data : Option (ArrayData α)) (dim : List String) (attr : Attrs)
    (dtype : Option NpDtype) (zlibArg : Option Bool) (clArg : Option Nat)
    (chunks : Option (List Nat)) (dt : NpDtype)
    (hopen : h.dataset = some d)
    (hnew : d.vars name = none)
    (hdt : dtypeResolve dtype data = some dt) :
    Except.map (fun h1 => Option.map (fun d1 =>
        Option.map (fun v1 => (v1.enc_zlib, v1.enc_complevel)) (d1.vars name)) h1.dataset)
        (h.write_var name data dim attr dtype zlibArg clArg chunks)
      = Except.ok (some (some (some (resolveZlib h.zlib zlibArg dt),
          some (resolveComplevel h.complevel clArg))))
    ∧ resolveZlib h.zlib zlibArg dt = (if dt.isNumber then zlibArg.getD h.zlib else false)
    ∧ resolveComplevel h.complevel clArg = clArg.getD h.complevel := by
  refine ⟨?_, ?_, ?_⟩
  · simp only [Dataset.write_var, hopen, hdt, hnew]
    simp [Except.map, NcData.setVariable]
  · unfold resolveZlib
    cases zlibArg <;> cases hb : dt.isNumber <;> simp [hb]
  · unfold resolveComplevel
    cases clArg <;> simp

theorem write_var_encoding_witness :
    Except.map (fun h1 => Option.map (fun d1 =>
        Option.map (fun v1 => (v1.enc_zlib, v1.enc_complevel)) (d1.vars "labels")) h1.dataset)
        (Dataset.write_var sampleW "labels" none [] (fun _ => none)
          (some NpDtype.str_) (some true) (some 9) none)
      = Except.ok (some (some (some (resolveZlib sampleW.zlib (some true) NpDtype.str_),
          some (resolveComplevel sampleW.complevel (some 9)))))
    ∧ resolveZlib sampleW.zlib (some true) NpDtype.str_
        = (if NpDtype.str_.isNumber then (some true).getD sampleW.zlib else false)
    ∧ resolveComplevel sampleW.complevel (some 9) = (some 9).getD sampleW.complevel :=
  write_var_encoding sampleW (NcData.empty Int) "labels" none [] (fun _ => none)
    (some NpDtype.str_) (some true) (some 9) none NpDtype.str_ rfl rfl rfl

end PynetCF
